import Mathlib

/-!
Shallow embedding of `sardana_icepap/ctrl/IcePAPTriggerController.py`.

Floating-point values of the Python source are modelled with exact
rationals (`ℚ`); hardware interactions (configuration reads, table
loads, output writes) are modelled as explicit inputs together with an
event trace recording which hardware calls were issued.
-/

namespace IcePAPTrigger

/-- Output levels written to the trigger line: the module-level
constants `LOW = 'low'`, `HIGH = 'high'`, `ECAM = 'ecam'`. -/
inductive OutLevel where
  | low
  | high
  | ecam
deriving DecidableEq, Repr

/-- `MAX_ECAM_VALUES = 20477`: hardware limit on the ecam table size. -/
def MAX_ECAM_VALUES : ℕ := 20477

/-- `ECAM_SOURCE_VALUES = ['ENCIN', 'ABSENC', 'INPOS']`. -/
def ECAM_SOURCE_VALUES : List String := ["ENCIN", "ABSENC", "INPOS"]

/-- The integer configuration registers of the motor read through
`motor.get_cfg`, together with the `TGTENC` register.  `tgtenc = none`
models the `get_cfg('TGTENC')` call raising (caught by `SynchOne`). -/
structure MotorCfg where
  tgtenc : Option String
  einnstep : Int
  einnturn : Int
  absnstep : Int
  absnturn : Int
  inpnstep : Int
  inpnturn : Int
  anstep : Int
  anturn : Int
deriving DecidableEq, Repr

/-- `motor_resol = int(ANSTEP) / int(ANTURN)` (true division). -/
def motorResol (cfg : MotorCfg) : ℚ := (cfg.anstep : ℚ) / (cfg.anturn : ℚ)

/-- The config key holding the steps register of an encoder source:
the `cfgstep` variable of `SynchOne`. -/
def cfgStepKey (enc : String) : String :=
  if enc = "ENCIN" then "EINNSTEP"
  else if enc = "ABSENC" then "ABSNSTEP"
  else if enc = "INPOS" then "INPNSTEP"
  else "ANSTEP"

/-- The config key holding the turns register of an encoder source:
the `cfgturn` variable of `SynchOne`. -/
def cfgTurnKey (enc : String) : String :=
  if enc = "ENCIN" then "EINNTURN"
  else if enc = "ABSENC" then "ABSNTURN"
  else if enc = "INPOS" then "INPNTURN"
  else "ANTURN"

/-- `enc_resol = int(get_cfg(cfgstep)) / int(get_cfg(cfgturn))` for the
selected encoder source (the `elif` chain of `SynchOne`). -/
def encResol (cfg : MotorCfg) (enc : String) : ℚ :=
  if enc = "ENCIN" then (cfg.einnstep : ℚ) / (cfg.einnturn : ℚ)
  else if enc = "ABSENC" then (cfg.absnstep : ℚ) / (cfg.absnturn : ℚ)
  else if enc = "INPOS" then (cfg.inpnstep : ℚ) / (cfg.inpnturn : ℚ)
  else (cfg.anstep : ℚ) / (cfg.anturn : ℚ)

/-- Python's `str.upper()` (ASCII case mapping), applied to the
`_ecam_source` string before branching. -/
def upperString (s : String) : String := ⟨s.data.map Char.toUpper⟩

/-- The rescaling `x = (x / motor_resol) * enc_resol` that `SynchOne`
applies to `start`, `delta` and `end` when the ecam source is not
`AXIS`; identity for `AXIS`. -/
def convertPos (cfg : MotorCfg) (enc : String) (v : ℚ) : ℚ :=
  if enc = "AXIS" then v else v / motorResol cfg * encResol cfg enc

/-- The multiplicative factor `convertPos` applies: `1` for `AXIS`,
`enc_resol / motor_resol` otherwise. -/
def convRatio (cfg : MotorCfg) (enc : String) : ℚ :=
  if enc = "AXIS" then 1 else encResol cfg enc / motorResol cfg

/-- `numpy.linspace(a, b, n)` over exact rationals: `n` evenly spaced
samples from `a` to `b`, endpoints included. -/
def linspace (a b : ℚ) (n : ℕ) : List ℚ :=
  if n ≤ 1 then List.replicate n a
  else (List.range n).map fun i : ℕ => a + (b - a) * (i : ℚ) / ((n - 1 : ℕ) : ℚ)

/-- The synchronization description read from `configuration[0]`:
`Repeats`, the optional `Initial` position (absent for time-driven
synchronization) and the `Total` position increment, both taken in the
`Position` domain. -/
structure SynchArgs where
  nrPoints : ℕ
  initial : Option ℚ
  total : ℚ
deriving DecidableEq, Repr

/-- Hardware calls issued by `SynchOne`. -/
inductive HwEvent where
  | getCfg (key : String)
  | setEcamTable (table : List ℚ) (source : String)
deriving DecidableEq, Repr

/-- Outcome of a `SynchOne` call. -/
inductive SynchResult where
  | timeMode
  | valueError (msg : String)
  | cfgError
  | runtimeError (msg : String)
  | loaded (table : List ℚ)
deriving DecidableEq, Repr

/-- The full observable outcome of `SynchOne`: the control-flow result,
the trigger table that was computed (if any), the trace of hardware
calls, and the `_time_mode` / `_is_tgtenc` fields after the call. -/
structure SynchOutcome where
  result : SynchResult
  table : Option (List ℚ)
  events : List HwEvent
  timeMode : Bool
  isTgtenc : Bool
deriving DecidableEq, Repr

/-- The `for i in range(self._retries_nr)` loop around
`set_ecam_table`: each attempt issues a hardware call; the loop stops
at the first success.  `loadOk i` tells whether attempt `i` succeeds;
the fuel argument counts the remaining attempts and `i` is the current
attempt index.  Returns whether the table got loaded and the trace. -/
def loadAttempts (loadOk : ℕ → Bool) (table : List ℚ) (source : String) :
    ℕ → ℕ → Bool × List HwEvent
  | 0, _ => (false, [])
  | n + 1, i =>
    if loadOk i then (true, [HwEvent.setEcamTable table source])
    else
      let rest := loadAttempts loadOk table source n (i + 1)
      (rest.1, HwEvent.setEcamTable table source :: rest.2)

/-- `SynchOne(axis, configuration)`.  Parameters model the controller
state and the hardware: `cfg` the motor configuration registers, `spu`
the cached `_motor_spu`, `startTriggerOnly` the `_start_trigger_only`
flag, `source` the `_ecam_source` string, `retriesNr` the
`_retries_nr` field, `loadOk` the success of each `set_ecam_table`
attempt, `ptm`/`pit` the prior `_time_mode` / `_is_tgtenc` values, and
`args` the synchronization group. -/
def synchOne (cfg : MotorCfg) (spu : ℚ) (startTriggerOnly : Bool) (source : String)
    (retriesNr : ℕ) (loadOk : ℕ → Bool) (ptm pit : Bool) (args : SynchArgs) :
    SynchOutcome :=
  match args.initial with
  | none =>
    if args.nrPoints > 1 then
      { result := SynchResult.valueError
          "The IcePAP Trigger Controller is not allowed to generate multiple trigger synchronized by time"
        table := none, events := [], timeMode := ptm, isTgtenc := pit }
    else
      { result := SynchResult.timeMode, table := none, events := [],
        timeMode := true, isTgtenc := pit }
  | some startUser =>
    match cfg.tgtenc with
    | none =>
      { result := SynchResult.cfgError, table := none,
        events := [HwEvent.getCfg "TGTENC"], timeMode := false, isTgtenc := pit }
    | some tgtencCfg =>
      let isTgtenc := tgtencCfg = "NONE"
      let start0 := startUser * spu
      let delta0 := args.total * spu
      let end0 := start0 + delta0 * (args.nrPoints : ℚ)
      let enc := upperString source
      let convEvents : List HwEvent :=
        if enc = "AXIS" then []
        else [HwEvent.getCfg (cfgStepKey enc), HwEvent.getCfg (cfgTurnKey enc),
              HwEvent.getCfg "ANSTEP", HwEvent.getCfg "ANTURN"]
      let start := convertPos cfg enc start0
      let delta := convertPos cfg enc delta0
      let endv := convertPos cfg enc end0
      let baseEvents := HwEvent.getCfg "TGTENC" :: convEvents
      if startTriggerOnly then
        let tt := [start]
        let la := loadAttempts loadOk tt source retriesNr 0
        { result := if la.1 then SynchResult.loaded tt
            else SynchResult.runtimeError "Can not send trigger table."
          table := some tt, events := baseEvents ++ la.2,
          timeMode := false, isTgtenc := isTgtenc }
      else if args.nrPoints > MAX_ECAM_VALUES then
        { result := SynchResult.runtimeError
            "The Trigger by position not accept more than 20477 positions (points)"
          table := none, events := baseEvents, timeMode := false, isTgtenc := isTgtenc }
      else
        let tt := linspace start (endv - delta) args.nrPoints
        let la := loadAttempts loadOk tt source retriesNr 0
        { result := if la.1 then SynchResult.loaded tt
            else SynchResult.runtimeError "Can not send trigger table."
          table := some tt, events := baseEvents ++ la.2,
          timeMode := false, isTgtenc := isTgtenc }

/-- The retry count computed in `__init__`:
`retries = 3 // (Timeout + 0.1); if retries == 0: retries = 1;
retries = int(retries)`  (`//` is floor division). -/
def retriesNrOf (timeout : ℚ) : ℤ :=
  let r := ⌊(3 : ℚ) / (timeout + 1 / 10)⌋
  if r = 0 then 1 else r

/-- A `State` value returned by `StateOne`. -/
inductive TrigState where
  | on
  | moving
  | alarm
deriving DecidableEq, Repr

/-- The hardware axis status object returned by
`self._ipap[self._motor_axis].state`. -/
structure HwMotorState where
  poweron : Bool
  moving : Bool
  settling : Bool
deriving DecidableEq, Repr

/-- The `for i in range(self._retries_nr)` loop of `StateOne`:
`read i` is the result of the `i`-th attempt to read the hardware
state (`none` models the read raising).  The loop breaks at the first
success.  Returns the value of `hw_state` after the loop and the list
of attempt indices actually issued to the hardware. -/
def stateReadLoop (read : ℕ → Option HwMotorState) :
    ℕ → ℕ → Option HwMotorState × List ℕ
  | 0, _ => (none, [])
  | n + 1, i =>
    match read i with
    | some s => (some s, [i])
    | none =>
      let rest := stateReadLoop read n (i + 1)
      (rest.1, i :: rest.2)

/-- `StateOne(axis)`.  `motorAxis` is the `_motor_axis` field
(`none` until a motor has been bound), `retriesNr` the `_retries_nr`
field, `read` the hardware state reads.  Returns `(state, status)`
together with the list of hardware read attempts performed. -/
def stateOne (motorAxis : Option ℤ) (retriesNr : ℕ)
    (read : ℕ → Option HwMotorState) : (TrigState × String) × List ℕ :=
  match motorAxis with
  | none => ((TrigState.on, "No synchronization in progress"), [])
  | some _ =>
    let lp := stateReadLoop read retriesNr 0
    match lp.1 with
    | none =>
      ((TrigState.alarm, "The motor is power off or not possible to read State"), lp.2)
    | some s =>
      if !s.poweron then
        ((TrigState.alarm, "The motor is power off or not possible to read State"), lp.2)
      else if s.moving || s.settling then
        ((TrigState.moving, "Moving"), lp.2)
      else
        ((TrigState.on, "Motor is not generating triggers."), lp.2)

/-- The controller fields touched by `_configureMotor`. -/
structure MotorBinding where
  lastId : Option ℤ
  motorAxis : Option ℤ
  motorSpu : ℚ
deriving DecidableEq, Repr

/-- Position-multiplexer reconfiguration calls issued by
`_configureMotor`. -/
inductive PmuxEvent where
  | clearPmux (line : String)
  | addPmux (axis : ℤ) (line : String) (pos aux hard : Bool)
deriving DecidableEq, Repr

/-- `'E0' in p` for a pmux entry `p`. -/
def pmuxEntryHasE0 (p : String) : Bool := 1 < (p.splitOn "E0").length

/-- `_configureMotor(id_, axis)`.  `spu` is the `step_per_unit` value
read from the taurus device, `pmux` the list returned by
`get_pmux()`.  Returns the updated binding fields and the multiplexer
reconfiguration calls issued. -/
def configureMotor (st : MotorBinding) (id_ : ℤ) (axis : ℤ) (spu : ℚ)
    (pmux : List String) : MotorBinding × List PmuxEvent :=
  let st1 : MotorBinding := { st with motorAxis := some id_, motorSpu := spu }
  if some id_ = st.lastId then (st1, [])
  else
    let st2 : MotorBinding := { st1 with lastId := some id_ }
    if axis = 0 then
      let clearEvs : List PmuxEvent :=
        if pmux.any pmuxEntryHasE0 then [PmuxEvent.clearPmux "e0"] else []
      (st2, clearEvs ++ [PmuxEvent.addPmux id_ "e0" false true true])
    else (st2, [])

/-- Hardware writes issued by `_set_out`. -/
inductive OutEvent where
  | syncauxWrite (value : OutLevel)
  | infoWrite (info : String) (value : OutLevel)
  | getCfgTgtenc
deriving DecidableEq, Repr

/-- Success/failure of the hardware calls `_set_out` can issue:
whether the `motor.syncaux = value` write succeeds, whether the
`setattr(motor, info, value)` write for each info output succeeds, and
the result of `motor.get_cfg('TGTENC')` (`none` models it raising). -/
structure OutHw where
  syncauxOk : Bool
  infoOk : String → Bool
  tgtencCfg : Option String

/-- The controller fields touched by `_set_out`. -/
structure OutState where
  motorAxis : Option ℤ
  ecamSourceDict : Option (List (ℤ × String))
  ecamSource : String
deriving DecidableEq, Repr

/-- Association-list lookup for the `_ecam_source_dict`. -/
def dictFind (d : List (ℤ × String)) (k : ℤ) : Option String :=
  match d with
  | [] => none
  | (k0, v) :: rest => if k0 = k then some v else dictFind rest k

/-- Association-list update: `self._ecam_source_dict[k] = v`. -/
def dictSet (d : List (ℤ × String)) (k : ℤ) (v : String) : List (ℤ × String) :=
  match d with
  | [] => [(k, v)]
  | (k0, v0) :: rest =>
    if k0 = k then (k0, v) :: rest else (k0, v0) :: dictSet rest k v

/-- The writes issued by the `for info_out in self._axis_info_list`
loop of `_set_out` (`axis != 0` branch): each `setattr` may raise;
the loop stops at the first failure. -/
def infoWrites (hw : OutHw) (out : OutLevel) :
    List String → Except String (List OutEvent)
  | [] => Except.ok []
  | info :: rest =>
    if hw.infoOk info then
      match infoWrites hw out rest with
      | Except.ok evs => Except.ok (OutEvent.infoWrite info out :: evs)
      | Except.error e => Except.error e
    else Except.error "info output write failed"

/-- `_set_out(out, axis)`.  No exception is caught inside the Python
function: any failing hardware call propagates to the caller
(modelled by `Except.error`).  On success returns the updated state
fields and the trace of hardware calls. -/
def set_out (hw : OutHw) (infoList : List String) (st : OutState)
    (out : OutLevel) (axis : ℤ) : Except String (OutState × List OutEvent) :=
  match st.motorAxis with
  | none => Except.error "no motor bound"
  | some ma =>
    if axis = 0 then
      if hw.syncauxOk then
        match st.ecamSourceDict with
        | some d =>
          match dictFind d ma with
          | some srcRaw =>
            let enc := upperString srcRaw
            if enc = "TGTENC" then
              match hw.tgtencCfg with
              | none => Except.error "get_cfg TGTENC failed"
              | some enc2 =>
                let d2 := dictSet d ma enc2
                if enc2 ∈ ECAM_SOURCE_VALUES then
                  Except.ok ({ st with ecamSourceDict := some d2, ecamSource := enc2 },
                    [OutEvent.syncauxWrite out, OutEvent.getCfgTgtenc])
                else
                  Except.ok ({ st with ecamSourceDict := some d2, ecamSource := "AXIS" },
                    [OutEvent.syncauxWrite out, OutEvent.getCfgTgtenc])
            else if enc ∈ ECAM_SOURCE_VALUES then
              Except.ok ({ st with ecamSource := srcRaw }, [OutEvent.syncauxWrite out])
            else
              Except.ok ({ st with ecamSource := "AXIS" }, [OutEvent.syncauxWrite out])
          | none =>
            Except.ok ({ st with ecamSource := "AXIS" }, [OutEvent.syncauxWrite out])
        | none =>
          Except.ok ({ st with ecamSource := "AXIS" }, [OutEvent.syncauxWrite out])
      else Except.error "syncaux write failed"
    else
      match infoWrites hw out infoList with
      | Except.ok evs => Except.ok (st, evs)
      | Except.error e => Except.error e

/-- `AbortOne(axis)`: a debug log followed by `self._set_out(LOW, axis)`,
with no exception handling of its own. -/
def abortOne (hw : OutHw) (infoList : List String) (st : OutState)
    (axis : ℤ) : Except String (OutState × List OutEvent) :=
  set_out hw infoList st OutLevel.low axis

/-! ## Helper lemmas -/

theorem convertPos_eq_mul (cfg : MotorCfg) (enc : String) (v : ℚ) :
    convertPos cfg enc v = v * convRatio cfg enc := by
  unfold convertPos convRatio
  split
  · exact (mul_one v).symm
  · rw [div_mul_eq_mul_div, mul_div_assoc]

theorem linspace_arith (a d : ℚ) (n : ℕ) (hn : 2 ≤ n) :
    linspace a (a + d * ((n : ℚ) - 1)) n
      = (List.range n).map fun i : ℕ => a + d * i := by
  unfold linspace
  rw [if_neg (by omega)]
  refine List.map_congr_left ?_
  intro i _
  have hc : ((n - 1 : ℕ) : ℚ) = (n : ℚ) - 1 := by
    have h1 : 1 ≤ n := by omega
    push_cast [Nat.cast_sub h1]
    ring
  have hne : (n : ℚ) - 1 ≠ 0 := by
    have h2 : (2 : ℚ) ≤ n := by exact_mod_cast hn
    intro h
    nlinarith
  rw [hc]
  field_simp
  ring

theorem pairwise_arith_lt (a d : ℚ) (hd : 0 < d) (n : ℕ) :
    ((List.range n).map fun i : ℕ => a + d * i).Pairwise (· < ·) := by
  refine List.Pairwise.map (fun i : ℕ => a + d * i) ?_ (List.pairwise_lt_range n)
  intro i j hij
  have hij' : (i : ℚ) < j := by exact_mod_cast hij
  show a + d * (i : ℚ) < a + d * (j : ℚ)
  have h2 := mul_lt_mul_of_pos_left hij' hd
  linarith

theorem pairwise_arith_gt (a d : ℚ) (hd : d < 0) (n : ℕ) :
    ((List.range n).map fun i : ℕ => a + d * i).Pairwise (· > ·) := by
  refine List.Pairwise.map (fun i : ℕ => a + d * i) ?_ (List.pairwise_lt_range n)
  intro i j hij
  have hij' : (i : ℚ) < j := by exact_mod_cast hij
  show a + d * (j : ℚ) < a + d * (i : ℚ)
  have h2 := mul_lt_mul_of_neg_left hij' hd
  linarith

theorem head_map_range (f : ℕ → ℚ) (n : ℕ) (hn : 0 < n) :
    ((List.range n).map f).head? = some (f 0) := by
  obtain ⟨m, rfl⟩ : ∃ m, n = m + 1 := ⟨n - 1, by omega⟩
  rw [List.range_succ_eq_map]
  simp

/-- The trigger table computed by the position branch of `SynchOne`
when `start_trigger_only` is off and the size limit is respected. -/
theorem synchOne_table_eq (cfg : MotorCfg) (spu : ℚ) (source : String)
    (retries : ℕ) (loadOk : ℕ → Bool) (ptm pit : Bool) (n : ℕ) (s0 du : ℚ)
    (tg : String) (hTg : cfg.tgtenc = some tg) (hn : 2 ≤ n)
    (hmax : n ≤ MAX_ECAM_VALUES) :
    (synchOne cfg spu false source retries loadOk ptm pit ⟨n, some s0, du⟩).table
      = some ((List.range n).map fun i : ℕ =>
          convertPos cfg (upperString source) (s0 * spu)
            + convertPos cfg (upperString source) (du * spu) * i) := by
  have hmax' : ¬ n > MAX_ECAM_VALUES := by omega
  unfold synchOne
  rw [hTg]
  simp only [hmax', Bool.false_eq_true, if_false, ite_false]
  set a := convertPos cfg (upperString source) (s0 * spu) with ha
  set d := convertPos cfg (upperString source) (du * spu) with hd
  have hend : convertPos cfg (upperString source) (s0 * spu + du * spu * (n : ℚ)) - d
      = a + d * ((n : ℚ) - 1) := by
    rw [convertPos_eq_mul, ha, hd, convertPos_eq_mul, convertPos_eq_mul]
    ring
  rw [hend, linspace_arith a d n hn]

theorem configureMotor_sets_lastId (st : MotorBinding) (id_ axis : ℤ) (spu : ℚ)
    (pmux : List String) :
    (configureMotor st id_ axis spu pmux).1.lastId = some id_ := by
  unfold configureMotor
  by_cases h : some id_ = st.lastId
  · rw [if_pos h]
    exact h.symm
  · rw [if_neg h]
    by_cases hax : axis = 0
    · rw [if_pos hax]
    · rw [if_neg hax]

theorem configureMotor_noop_of_lastId (st : MotorBinding) (id_ axis : ℤ) (spu : ℚ)
    (pmux : List String) (h : st.lastId = some id_) :
    (configureMotor st id_ axis spu pmux).2 = [] := by
  unfold configureMotor
  rw [if_pos h.symm]

/-! ## Claim theorems -/

/-- C1: for every PositionDriven synchronization spec with
`repeat_count > 1` and `delta ≠ 0` (with `start_trigger_only` false and
`repeat_count ≤ 20477`), under positive resolution registers, the table
produced by `SynchOne` is strictly monotonic in the sign of `delta`,
has exactly `repeat_count` elements, and its first element equals
`start` converted to the resolved feedback source's units. -/
theorem synchOne_table_monotone (cfg : MotorCfg) (spu : ℚ) (source : String)
    (retries : ℕ) (loadOk : ℕ → Bool) (ptm pit : Bool) (n : ℕ) (s0 du : ℚ)
    (tg : String) (hTg : cfg.tgtenc = some tg) (hn : 1 < n)
    (hmax : n ≤ MAX_ECAM_VALUES)
    (hmr : 0 < motorResol cfg) (her : 0 < encResol cfg (upperString source))
    (_hd : du * spu ≠ 0) :
    ∃ tb,
      (synchOne cfg spu false source retries loadOk ptm pit ⟨n, some s0, du⟩).table
          = some tb
        ∧ tb.length = n
        ∧ tb.head? = some (convertPos cfg (upperString source) (s0 * spu))
        ∧ (0 < du * spu → tb.Pairwise (· < ·))
        ∧ (du * spu < 0 → tb.Pairwise (· > ·)) := by
  have h2 : 2 ≤ n := hn
  set enc := upperString source with henc
  set a := convertPos cfg enc (s0 * spu) with ha
  set d := convertPos cfg enc (du * spu) with hdd
  have hratio : 0 < convRatio cfg enc := by
    unfold convRatio
    split
    · norm_num
    · exact div_pos her hmr
  have hdmul : d = du * spu * convRatio cfg enc := convertPos_eq_mul cfg enc (du * spu)
  refine ⟨(List.range n).map fun i : ℕ => a + d * i, ?_, ?_, ?_, ?_, ?_⟩
  · exact synchOne_table_eq cfg spu source retries loadOk ptm pit n s0 du tg hTg h2 hmax
  · simp
  · rw [head_map_range _ n (by omega)]
    norm_num
  · intro hpos
    refine pairwise_arith_lt a d ?_ n
    rw [hdmul]
    exact mul_pos hpos hratio
  · intro hneg
    refine pairwise_arith_gt a d ?_ n
    rw [hdmul]
    exact mul_neg_of_neg_of_pos hneg hratio

/-- Witness for `synchOne_table_monotone` at the concrete C2-style
input (external encoder 10000:1, axis 8000:1, spu 100, 3 points). -/
theorem synchOne_table_monotone_witness :
    ∃ tb,
      (synchOne ⟨some "ENCIN", 10000, 1, 1, 1, 1, 1, 8000, 1⟩ 100 false "ENCIN" 3
          (fun _ => true) false false ⟨3, some 0, 1⟩).table = some tb
        ∧ tb.length = 3
        ∧ tb.head? = some (convertPos ⟨some "ENCIN", 10000, 1, 1, 1, 1, 1, 8000, 1⟩
            (upperString "ENCIN") ((0 : ℚ) * 100))
        ∧ (0 < (1 : ℚ) * 100 → tb.Pairwise (· < ·))
        ∧ ((1 : ℚ) * 100 < 0 → tb.Pairwise (· > ·)) :=
  synchOne_table_monotone ⟨some "ENCIN", 10000, 1, 1, 1, 1, 1, 8000, 1⟩ 100 "ENCIN" 3
    (fun _ => true) false false 3 0 1 "ENCIN" rfl (by decide) (by decide)
    (by norm_num [motorResol])
    (by norm_num [encResol, show upperString "ENCIN" = "ENCIN" from rfl])
    (by norm_num)

/-- C2: with feedback source ENCIN (10000 steps, 1 turn), axis
resolution 8000 steps / 1 turn, `step_per_unit = 100`, spec
`start = 0`, `step = 1`, `repeat_count = 3`, `start_trigger_only`
false, `SynchOne` computes the table `[0, 125, 250]`. -/
theorem synchOne_encin_scenario :
    (synchOne ⟨some "ENCIN", 10000, 1, 1, 1, 1, 1, 8000, 1⟩ 100 false "ENCIN" 3
      (fun _ => true) false false ⟨3, some 0, 1⟩).table = some [0, 125, 250] := by
  rw [synchOne_table_eq ⟨some "ENCIN", 10000, 1, 1, 1, 1, 1, 8000, 1⟩ 100 "ENCIN" 3
    (fun _ => true) false false 3 0 1 "ENCIN" rfl (by decide) (by decide)]
  norm_num [List.range_succ, convertPos, motorResol, encResol,
    show upperString "ENCIN" = "ENCIN" from rfl,
    show ("ENCIN" : String) ≠ "AXIS" from by decide]

/-- C3 (behaviour at the failing input): with `delta = 0` and
`repeat_count = 3`, `SynchOne` raises no error at all: it builds the
degenerate table `[5, 5, 5]` and loads it onto the hardware. -/
theorem synchOne_delta_zero_loads_degenerate :
    (synchOne ⟨some "ENCIN", 1, 1, 1, 1, 1, 1, 1, 1⟩ 1 false "AXIS" 3
      (fun _ => true) false false ⟨3, some 5, 0⟩).result
      = SynchResult.loaded [5, 5, 5] := by
  norm_num [synchOne, convertPos, linspace, loadAttempts, MAX_ECAM_VALUES,
    List.range_succ, show upperString "AXIS" = "AXIS" from rfl]

/-- C4 (counterexample): with `start_trigger_only` true and
`repeat_count = 20478 > 20477`, `SynchOne` does not fail with
`TableTooLarge`; it loads the one-element table `[5]`. -/
theorem synchOne_size_limit_skipped_when_startTriggerOnly :
    (synchOne ⟨some "ENCIN", 1, 1, 1, 1, 1, 1, 1, 1⟩ 1 true "AXIS" 3
      (fun _ => true) false false ⟨20478, some 5, 1⟩).result
      = SynchResult.loaded [5] := by
  norm_num [synchOne, convertPos, loadAttempts,
    show upperString "AXIS" = "AXIS" from rfl]

/-- C4 (amended): for every PositionDriven spec with
`start_trigger_only` false and `repeat_count > 20477`, `SynchOne`
fails with the `TableTooLarge` runtime error. -/
theorem synchOne_tableTooLarge (cfg : MotorCfg) (spu : ℚ) (source : String)
    (retries : ℕ) (loadOk : ℕ → Bool) (ptm pit : Bool) (n : ℕ) (s0 du : ℚ)
    (tg : String) (hTg : cfg.tgtenc = some tg) (hn : MAX_ECAM_VALUES < n) :
    (synchOne cfg spu false source retries loadOk ptm pit ⟨n, some s0, du⟩).result
      = SynchResult.runtimeError
          "The Trigger by position not accept more than 20477 positions (points)" := by
  unfold synchOne
  rw [hTg]
  simp [hn]

/-- Witness for `synchOne_tableTooLarge` at `repeat_count = 20478`. -/
theorem synchOne_tableTooLarge_witness :
    MAX_ECAM_VALUES < 20478
    ∧ (synchOne ⟨some "ENCIN", 1, 1, 1, 1, 1, 1, 1, 1⟩ 1 false "AXIS" 3
        (fun _ => true) false false ⟨20478, some 5, 1⟩).result
        = SynchResult.runtimeError
            "The Trigger by position not accept more than 20477 positions (points)" :=
  ⟨by decide,
    synchOne_tableTooLarge ⟨some "ENCIN", 1, 1, 1, 1, 1, 1, 1, 1⟩ 1 "AXIS" 3
      (fun _ => true) false false 20478 5 1 "ENCIN" rfl (by decide)⟩

/-- C5: a TimeDriven spec (no Initial parameter) with
`repeat_count > 1` makes `SynchOne` fail with the
multiple-time-triggers `ValueError` and the hardware event trace is
empty: no config read, no table load, no output write occurs. -/
theorem synchOne_timeDriven_rejects_multi (cfg : MotorCfg) (spu : ℚ) (sto : Bool)
    (source : String) (retries : ℕ) (loadOk : ℕ → Bool) (ptm pit : Bool)
    (n : ℕ) (du : ℚ) (hn : 1 < n) :
    (synchOne cfg spu sto source retries loadOk ptm pit ⟨n, none, du⟩).result
      = SynchResult.valueError
          "The IcePAP Trigger Controller is not allowed to generate multiple trigger synchronized by time"
    ∧ (synchOne cfg spu sto source retries loadOk ptm pit ⟨n, none, du⟩).events
      = [] := by
  unfold synchOne
  simp [hn]

/-- Witness for `synchOne_timeDriven_rejects_multi` at
`repeat_count = 2`. -/
theorem synchOne_timeDriven_rejects_multi_witness :
    1 < 2
    ∧ ((synchOne ⟨some "ENCIN", 1, 1, 1, 1, 1, 1, 1, 1⟩ 1 false "AXIS" 3
          (fun _ => true) false false ⟨2, none, 0⟩).result
        = SynchResult.valueError
            "The IcePAP Trigger Controller is not allowed to generate multiple trigger synchronized by time"
      ∧ (synchOne ⟨some "ENCIN", 1, 1, 1, 1, 1, 1, 1, 1⟩ 1 false "AXIS" 3
          (fun _ => true) false false ⟨2, none, 0⟩).events = []) :=
  ⟨by decide,
    synchOne_timeDriven_rejects_multi ⟨some "ENCIN", 1, 1, 1, 1, 1, 1, 1, 1⟩ 1 false
      "AXIS" 3 (fun _ => true) false false 2 0 (by decide)⟩

/-- C6: for every positive per-call timeout, the retry count computed
in `__init__` equals `max(1, floor(3 / (timeout + 0.1)))`. -/
theorem retriesNr_formula (t : ℚ) (ht : 0 < t) :
    retriesNrOf t = max 1 ⌊(3 : ℚ) / (t + 1 / 10)⌋ := by
  have hden : (0 : ℚ) < t + 1 / 10 := by linarith
  have hnn : 0 ≤ ⌊(3 : ℚ) / (t + 1 / 10)⌋ :=
    Int.floor_nonneg.mpr (div_nonneg (by norm_num) hden.le)
  show (if ⌊(3 : ℚ) / (t + 1 / 10)⌋ = 0 then 1 else ⌊(3 : ℚ) / (t + 1 / 10)⌋)
      = max 1 ⌊(3 : ℚ) / (t + 1 / 10)⌋
  by_cases h : ⌊(3 : ℚ) / (t + 1 / 10)⌋ = 0
  · rw [if_pos h, h]
    simp
  · rw [if_neg h, max_eq_right (by omega)]

/-- Witness for `retriesNr_formula` at timeout `1/2`. -/
theorem retriesNr_formula_witness :
    (0 : ℚ) < 1 / 2 ∧ retriesNrOf (1 / 2) = max 1 ⌊(3 : ℚ) / (1 / 2 + 1 / 10)⌋ :=
  ⟨by norm_num, retriesNr_formula (1 / 2) (by norm_num)⟩

/-- C7: with a motor bound, when every one of the `retries_nr` read
attempts fails, `StateOne` reports Alarm, never Moving or On. -/
theorem stateOne_all_fail_alarm (ma : ℤ) (retries : ℕ)
    (read : ℕ → Option HwMotorState) (h : ∀ i, read i = none) :
    ((stateOne (some ma) retries read).1).1 = TrigState.alarm
    ∧ ((stateOne (some ma) retries read).1).1 ≠ TrigState.moving
    ∧ ((stateOne (some ma) retries read).1).1 ≠ TrigState.on := by
  have key : ∀ n i, (stateReadLoop read n i).1 = none := by
    intro n
    induction n with
    | zero => intro i; rfl
    | succ k ih =>
      intro i
      simp [stateReadLoop, h i, ih (i + 1)]
  simp [stateOne, key]

/-- Witness for `stateOne_all_fail_alarm` with 3 retries all
timing out. -/
theorem stateOne_all_fail_alarm_witness :
    ((stateOne (some 1) 3 fun _ => none).1).1 = TrigState.alarm
    ∧ ((stateOne (some 1) 3 fun _ => none).1).1 ≠ TrigState.moving
    ∧ ((stateOne (some 1) 3 fun _ => none).1).1 ≠ TrigState.on :=
  stateOne_all_fail_alarm 1 3 (fun _ => none) fun _ => rfl

/-- C8: binding the axis a second time with the same motor id issues
none of the multiplexer reconfiguration calls (`clear_pmux`,
`add_pmux`), whatever the first binding did. -/
theorem configureMotor_rebind_no_pmux (st : MotorBinding) (id_ axis axis' : ℤ)
    (spu spu' : ℚ) (pmux pmux' : List String) :
    (configureMotor (configureMotor st id_ axis spu pmux).1 id_ axis' spu' pmux').2
      = [] :=
  configureMotor_noop_of_lastId _ id_ axis' spu' pmux'
    (configureMotor_sets_lastId st id_ axis spu pmux)

/-- C9 (counterexample): when the hardware output write fails,
`AbortOne` does raise: the exception from the `syncaux` write
propagates out of `AbortOne`. -/
theorem abortOne_raises_on_write_failure :
    abortOne ⟨false, fun _ => true, none⟩ ["InfoA"] ⟨some 44, none, "AXIS"⟩ 0
      = Except.error "syncaux write failed" := rfl

/-- C9 (amended): `AbortOne` performs the single normal output write
path toward the inactive LOW level: when the write succeeds the LOW
write is issued and `AbortOne` returns normally, and when the write
fails the exception propagates out of `AbortOne` uncaught. -/
theorem abortOne_propagates_write_failure (hw : OutHw) (infoList : List String)
    (st : OutState) (ma : ℤ) (hma : st.motorAxis = some ma)
    (hdict : st.ecamSourceDict = none) :
    (hw.syncauxOk = true →
      abortOne hw infoList st 0
        = Except.ok ({ st with ecamSource := "AXIS" },
            [OutEvent.syncauxWrite OutLevel.low]))
    ∧ (hw.syncauxOk = false →
      abortOne hw infoList st 0 = Except.error "syncaux write failed") := by
  constructor
  · intro h
    simp [abortOne, set_out, hma, hdict, h]
  · intro h
    simp [abortOne, set_out, hma, hdict, h]

/-- Witness for `abortOne_propagates_write_failure`: with a healthy
link the LOW write is issued and `AbortOne` succeeds. -/
theorem abortOne_propagates_write_failure_witness :
    abortOne ⟨true, fun _ => true, none⟩ ["InfoA"] ⟨some 44, none, "AXIS"⟩ 0
      = Except.ok (⟨some 44, none, "AXIS"⟩, [OutEvent.syncauxWrite OutLevel.low]) :=
  (abortOne_propagates_write_failure ⟨true, fun _ => true, none⟩ ["InfoA"]
    ⟨some 44, none, "AXIS"⟩ 44 rfl rfl).1 rfl

/-- C10: with no motor ever bound (`_motor_axis` unset), `StateOne`
returns On with the message `No synchronization in progress` and
issues no hardware reads at all. -/
theorem stateOne_unbound (retries : ℕ) (read : ℕ → Option HwMotorState) :
    stateOne none retries read
      = ((TrigState.on, "No synchronization in progress"), []) := rfl

end IcePAPTrigger
